import Mathlib

set_option maxRecDepth 4000

/-
Verification of the project-context / artifact-handoff pipeline core of the
ds-team repository, shallowly embedded in Lean 4.

Embedded source files:
  * agents/utils/smart_extract.py   (parse_sections, find_section,
    extract_sections, CONTEXT_MAP, get_context, get_multi_context)
  * agents/orchestrator/context_manager.py  (load_agent_context)
  * agents/orchestrator/orchestrator.py     (log_event, request_human_approval)
  * agents/orchestrator/handoff.py          (create_handoff_package,
    save_handoff_package, validate_handoff, request_handoff_approval,
    execute_handoff)

Modelling conventions:
  * Python str values are Lean String; Python text operations are modelled
    character-exactly for ASCII via the py* helpers below (Python's unicode
    special cases do not arise in any statement of this development).
  * Python dicts are insertion-ordered association lists; assignment is
    dinsert (replace in place, else append), lookup is dget?.
  * The file system is an association list from path to file content;
    os.path.exists p is (dget? fs p).isSome and reading is dget?.
  * The ChromaDB semantic index (tier 2 of get_context) is an external
    service; it is modelled as an oracle String -> String from query text to
    the returned chunk text, together with a Bool for CHROMA_AVAILABLE.
  * input() streams are lists of response lines; a function that would block
    forever waiting on input returns none.
  * Wall-clock timestamps (datetime.utcnow) are environment input; audit-log
    events are modelled by their event and detail strings, whose order in the
    append-only list is what the claims are about, and the timestamp strings
    produced by the clock are passed in as parameters where they land in
    records ("now").
  * print / SMS / email notification are side channels with no bearing on any
    claim and are not modelled.
-/

/-! ## Python string primitives -/

/-- The whitespace class of Python str.strip and of the regexes' \s (ASCII). -/
def pyIsSpace (c : Char) : Bool :=
  c = ' ' || c = '\t' || c = '\n' || c = '\r' || c = '\x0b' || c = '\x0c'

/-- Python str.strip(): remove leading and trailing whitespace. -/
def pyStrip (s : String) : String :=
  String.mk (((s.toList.dropWhile pyIsSpace).reverse.dropWhile pyIsSpace).reverse)

/-- Python str.lower() (ASCII). -/
def pyLower (s : String) : String :=
  String.mk (s.toList.map Char.toLower)

/-- Python str.upper() (ASCII). -/
def pyUpper (s : String) : String :=
  String.mk (s.toList.map Char.toUpper)

/-- Python len() on a str: number of code points. -/
def pyLen (s : String) : Nat :=
  s.toList.length

/-- Python s[:n] slicing. -/
def pyTake (s : String) (n : Nat) : String :=
  String.mk (s.toList.take n)

/-- Python text.split("\n"): split at every newline, keeping empty pieces. -/
def splitNl : List Char → List (List Char)
  | [] => [[]]
  | c :: rest =>
    let r := splitNl rest
    if c = '\n' then [] :: r
    else
      match r with
      | h :: t => (c :: h) :: t
      | [] => [[c]]

/-- The lines of a document, as Python text.split("\n") produces them. -/
def linesOf (text : String) : List String :=
  (splitNl text.toList).map String.mk

/-- Python sep.join(xs). -/
def pyJoin (sep : String) : List String → String
  | [] => ""
  | [x] => x
  | x :: y :: rest => x ++ sep ++ pyJoin sep (y :: rest)

/-- Does the pattern occur at the start of the character list? -/
def startsWithL : List Char → List Char → Bool
  | [], _ => true
  | _ :: _, [] => false
  | a :: as, b :: bs => a = b && startsWithL as bs

/-- Does the pattern occur contiguously anywhere in the character list?
(Python's `needle in hay`.) -/
def hasSubL (needle : List Char) : List Char → Bool
  | [] => startsWithL needle []
  | c :: t => startsWithL needle (c :: t) || hasSubL needle t

/-- Python `needle in hay` on str. -/
def pyIn (needle hay : String) : Bool :=
  hasSubL needle.toList hay.toList

/-- Python str.split() with no argument: split on whitespace runs, no empties. -/
def wordsAux : List Char → List Char → List (List Char)
  | acc, [] => if acc.isEmpty then [] else [acc.reverse]
  | acc, c :: t =>
    if pyIsSpace c then
      if acc.isEmpty then wordsAux [] t else acc.reverse :: wordsAux [] t
    else wordsAux (c :: acc) t

/-- Python str.split() (whitespace words). -/
def pyWords (s : String) : List String :=
  (wordsAux [] s.toList).map String.mk

/-! ## Python dicts as insertion-ordered association lists -/

/-- Python dict assignment d[k] = v: replace in place when the key exists,
otherwise append at the end (insertion order is observable via items()). -/
def dinsert {α : Type} : List (String × α) → String → α → List (String × α)
  | [], k, v => [(k, v)]
  | (k', v') :: rest, k, v =>
    if k' = k then (k, v) :: rest else (k', v') :: dinsert rest k v

/-- Python dict lookup d.get(k). -/
def dget? {α : Type} : List (String × α) → String → Option α
  | [], _ => none
  | (k', v') :: rest, k => if k' = k then some v' else dget? rest k

/-! ## smart_extract.py — section extraction (tier 1) -/

/-- The heading regex of parse_sections, `^(#{1,6})\s+(.+)$`, applied to
line.strip(); returns (level, raw heading text = group(2).strip()). -/
def matchHeading (line : String) : Option (Nat × String) :=
  let cs := (pyStrip line).toList
  let level := (cs.takeWhile (fun c => c = '#')).length
  let rest := cs.dropWhile (fun c => c = '#')
  if 1 ≤ level ∧ level ≤ 6 then
    match rest with
    | [] => none
    | c :: _ =>
      if pyIsSpace c then
        let body := rest.dropWhile pyIsSpace
        if body.isEmpty then none else some (level, pyStrip (String.mk body))
      else none
  else none

/-- First pass of parse_sections: all headings with line number and level. -/
def findHeadings (lines : List String) : List (Nat × Nat × String) :=
  lines.enum.filterMap fun p =>
    (matchHeading p.2).map fun q => (p.1, q.1, q.2)

/-- The end-of-span scan of parse_sections: the line number of the first
later heading whose level is ≤ the current level, else the line count. -/
def endLineScan (level numLines : Nat) : List (Nat × Nat × String) → Nat
  | [] => numLines
  | (ln, lvl, _) :: rest =>
    if lvl ≤ level then ln else endLineScan level numLines rest

/-- The character class stripped from the front of a heading key by
re.sub(r"^[\d\.\-\)\s]+", "", ...). -/
def isCleanChar (c : Char) : Bool :=
  c.isDigit || c = '.' || c = '-' || c = ')' || pyIsSpace c

/-- The "cleaned" lookup key: leading numbering/punctuation stripped. -/
def cleanKey (normalized : String) : String :=
  pyStrip (String.mk (normalized.toList.dropWhile isCleanChar))

/-- One fold step of parse_sections over the enumerated heading list. -/
def parseStep (lines : List String) (headings : List (Nat × Nat × String))
    (sections : List (String × String)) (p : Nat × Nat × Nat × String) :
    List (String × String) :=
  let idx := p.1
  let line_num := p.2.1
  let level := p.2.2.1
  let raw_heading := p.2.2.2
  let end_line := endLineScan level lines.length (headings.drop (idx + 1))
  let content :=
    pyStrip (pyJoin "\n" ((lines.drop (line_num + 1)).take (end_line - (line_num + 1))))
  let normalized := pyLower raw_heading
  let cleaned := cleanKey normalized
  if content ≠ "" then
    let s1 := dinsert sections normalized content
    if cleaned ≠ "" ∧ cleaned ≠ normalized then dinsert s1 cleaned content else s1
  else sections

/-- parse_sections: a markdown document as a dict of
{normalized heading: content span}, spans running from just after the heading
line to the next heading of equal or higher level; both the lowercased raw
heading and its cleaned form key the span; headings whose stripped span is
empty contribute nothing. -/
def parse_sections (text : String) : List (String × String) :=
  let lines := linesOf text
  let headings := findHeadings lines
  headings.enum.foldl (parseStep lines headings) []

/-- find_section: flexible lookup — exact key, wanted-in-key substring,
key-in-wanted substring, then best word-overlap above 1/2.  The source's
score is the fraction overlap / max(set sizes); the fold state carries that
fraction as numerator and positive denominator and both strict comparisons
(against the best so far and against 1/2) are realized exactly by cross
multiplication. -/
def find_section (sections : List (String × String)) (wanted : String) :
    Option String :=
  let wl := pyStrip (pyLower wanted)
  let wWords := (pyWords wl).dedup
  match dget? sections wl with
  | some c => some c
  | none =>
    match sections.find? (fun p => pyIn wl p.1) with
    | some p => some p.2
    | none =>
      match sections.find? (fun p => pyIn p.1 wl) with
      | some p => some p.2
      | none =>
        (sections.foldl
          (fun (best : Nat × Nat × Option String) p =>
            let kWords := (pyWords p.1).dedup
            if kWords.isEmpty || wWords.isEmpty then best
            else
              let overlap := (wWords.filter (fun w => kWords.contains w)).length
              let maxLen := max wWords.length kWords.length
              if best.1 * maxLen < overlap * best.2.1 ∧ maxLen < 2 * overlap then
                (overlap, maxLen, some p.2)
              else best)
          (0, 1, none)).2.2

/-- The labeled chunk extract_sections builds for one resolved section:
header (from the wanted name, uppercased) plus the section content. -/
def chunkOf (w content : String) : String :=
  "\n--- " ++ pyUpper w ++ " ---\n" ++ content

/-- The loop of extract_sections: accumulate labeled section chunks under the
character budget; on budget exhaustion mid-section, truncate and mark the
section when more than 200 characters remain, else drop it; then stop. -/
def extractLoop (sections : List (String × String)) (max_chars : Nat) :
    List String → Nat → List String → List String
  | [], _, parts => parts
  | w :: rest, total, parts =>
    match find_section sections w with
    | none => extractLoop sections max_chars rest total parts
    | some content =>
      if content = "" then extractLoop sections max_chars rest total parts
      else if max_chars ≠ 0 ∧ max_chars < total + pyLen (chunkOf w content) then
        if 200 < max_chars - total then
          parts ++ [pyTake (chunkOf w content) (max_chars - total) ++ "\n[...truncated]"]
        else parts
      else
        extractLoop sections max_chars rest (total + pyLen (chunkOf w content))
          (parts ++ [chunkOf w content])

/-- extract_sections: concatenated matching sections with labeled separators,
bounded by max_chars (0 = no limit). -/
def extract_sections (text : String) (wanted_sections : List String)
    (max_chars : Nat) : String :=
  pyJoin "\n" (extractLoop (parse_sections text) max_chars wanted_sections 0 [])


/-! ## smart_extract.py — CONTEXT_MAP -/

/-- CONTEXT_MAP: which sections each consumer agent needs from each artifact
type, transcribed entry for entry from agents/utils/smart_extract.py. -/
def CONTEXT_MAP : List (String × List (String × List String)) := [
  ("biz_analyst", [
    ("PRD", ["user stories", "scope", "success criteria", "stakeholders",
             "functional requirements", "non-functional requirements"])]),
  ("scrum_master", [
    ("PRD", ["user stories", "scope", "deliverables", "success criteria"]),
    ("BAD", ["process flows", "stakeholder", "data dictionary", "requirements traceability"])]),
  ("architect", [
    ("PRD", ["functional requirements", "non-functional requirements",
             "scope", "constraints", "deliverables"]),
    ("BAD", ["data dictionary", "process flows", "integration points"]),
    ("SPRINT_PLAN", ["sprint breakdown", "dependencies", "milestones"])]),
  ("security", [
    ("PRD", ["non-functional requirements", "compliance", "data classification",
             "user roles", "authentication"]),
    ("TAD", ["security", "authentication", "authorization", "data architecture",
             "api specifications", "deployment", "infrastructure"])]),
  ("ux_designer", [
    ("PRD", ["user stories", "user roles", "functional requirements", "scope"]),
    ("BAD", ["process flows", "stakeholder", "user journey"]),
    ("SRR", ["findings", "recommendations", "authentication requirements"])]),
  ("ux_content", [
    ("PRD", ["user stories", "user roles"]),
    ("UXD", ["screens", "components", "navigation", "interactions",
             "error states", "user flows"])]),
  ("senior_dev", [
    ("PRD", ["functional requirements", "non-functional requirements",
             "deliverables", "constraints"]),
    ("TAD", ["component", "api specifications", "data architecture",
             "technology stack", "infrastructure", "security"]),
    ("UXD", ["screens", "components", "navigation"])]),
  ("perf_plan", [
    ("PRD", ["non-functional requirements", "success criteria", "constraints"]),
    ("TAD", ["infrastructure", "scalability", "api specifications",
             "data architecture", "deployment", "component"]),
    ("TIP", ["api contracts", "project structure", "coding standards",
             "implementation sequence"])]),
  ("qa_lead", [
    ("PRD", ["user stories", "acceptance criteria", "scope",
             "functional requirements", "non-functional requirements"]),
    ("TIP", ["api contracts", "project structure", "module boundaries",
             "coding standards"]),
    ("TAD", ["component", "api specifications", "security"]),
    ("UXD", ["screens", "interactions", "error states", "accessibility"])]),
  ("test_auto", [
    ("MTP", ["test cases", "test strategy", "coverage targets",
             "acceptance criteria", "test data"]),
    ("TIP", ["api contracts", "project structure", "module boundaries"]),
    ("TAD", ["api specifications", "data architecture"])]),
  ("backend_dev", [
    ("TIP", ["api contracts", "project structure", "module boundaries",
             "coding standards", "implementation sequence", "dependencies"]),
    ("TAD", ["api specifications", "data architecture", "authentication",
             "authorization", "component"]),
    ("MTP", ["api test cases", "backend test cases", "integration tests"]),
    ("TAR", ["unit test", "api test", "integration test"])]),
  ("frontend_dev", [
    ("TIP", ["project structure", "frontend", "component", "coding standards"]),
    ("UXD", ["screens", "components", "navigation", "interactions",
             "responsive", "accessibility"]),
    ("MTP", ["frontend test cases", "component test", "e2e test",
             "accessibility test"]),
    ("TAR", ["component test", "e2e test", "accessibility test"]),
    ("CONTENT_GUIDE", ["labels", "buttons", "messages", "errors",
                       "tooltips", "navigation text"]),
    ("BIR", ["api endpoints", "authentication", "response format"])]),
  ("dba", [
    ("BIR", ["database schema", "sql", "migrations", "indexes",
             "queries", "data access"]),
    ("TAD", ["data architecture", "database", "scalability"]),
    ("SRR", ["data protection", "encryption", "audit", "compliance"])]),
  ("desktop_dev", [
    ("UXD", ["screens", "components", "navigation", "interactions",
             "accessibility"]),
    ("TAD", ["component", "api specifications", "security",
             "deployment", "technology stack"]),
    ("TIP", ["project structure", "coding standards", "dependencies",
             "implementation sequence"]),
    ("BIR", ["api endpoints", "authentication", "response format"]),
    ("FIR", ["component", "state management", "routing"])]),
  ("devops", [
    ("TIP", ["project structure", "dependencies", "deployment",
             "environment variables"]),
    ("TAD", ["infrastructure", "deployment", "scalability",
             "security", "monitoring"]),
    ("SRR", ["infrastructure", "secrets", "network", "compliance",
             "vulnerability"]),
    ("TAR", ["ci integration", "test execution", "coverage"])]),
  ("devex_writer", [
    ("PRD", ["scope", "deliverables", "success criteria", "user stories"]),
    ("TAD", ["component", "api specifications", "deployment",
             "technology stack", "architecture"]),
    ("BIR", ["api endpoints", "authentication", "response format",
             "error handling", "database schema", "webhooks"]),
    ("FIR", ["component", "routing", "state management"]),
    ("DIR", ["docker", "deployment", "environment variables",
             "ci/cd", "monitoring", "health check"]),
    ("DSKR", ["installation", "configuration", "packaging"])]),
  ("pen_test", [
    ("SRR", ["threat model", "findings", "attack surface",
             "authentication", "authorization", "compliance"]),
    ("BIR", ["api endpoints", "authentication", "authorization",
             "database", "input validation", "error handling",
             "middleware", "secrets", "cors"]),
    ("FIR", ["api integration", "authentication", "input handling",
             "state management", "routing"]),
    ("DIR", ["docker", "secrets", "environment variables",
             "network", "ci/cd", "tls"]),
    ("DBAR", ["permissions", "encryption", "audit", "backup",
              "access control"])]),
  ("scale_arch", [
    ("TAD", ["scalability", "infrastructure", "deployment",
             "data architecture", "component", "caching"]),
    ("BIR", ["database schema", "api endpoints", "caching",
             "connection pool", "pagination", "background jobs",
             "rate limiting", "queries"]),
    ("FIR", ["bundle", "code splitting", "lazy loading",
             "caching", "cdn", "images", "performance"]),
    ("DBAR", ["indexes", "partitioning", "replication",
              "materialized views", "query optimization"]),
    ("DIR", ["autoscaling", "load balancer", "cdn",
             "multi-region", "health check", "resource limits"])]),
  ("perf_audit", [
    ("PBD", ["api latency", "frontend performance", "database performance",
             "infrastructure", "load testing", "benchmarking",
             "mobile performance", "desktop performance"]),
    ("BIR", ["api endpoints", "database", "queries", "caching",
             "connection pool", "middleware", "background",
             "pagination", "serialization"]),
    ("FIR", ["bundle", "code splitting", "images", "lazy loading",
             "rendering", "state management", "performance"]),
    ("DIR", ["container", "resource limits", "autoscaling",
             "health check", "caching"]),
    ("DBAR", ["indexes", "query optimization", "partitioning",
              "connection pool", "explain"]),
    ("DSKR", ["ipc", "main process", "renderer", "memory",
              "startup", "performance"])]),
  ("a11y_audit", [
    ("UXD", ["accessibility", "screens", "components", "navigation",
             "interactions", "color", "contrast", "focus"]),
    ("FIR", ["accessibility", "aria", "semantic", "keyboard",
             "focus", "alt text", "components", "forms"]),
    ("BIR", ["error handling", "response format", "validation messages"]),
    ("IIR", ["voiceover", "accessibility", "dynamic type",
             "reduce motion", "labels"]),
    ("AIR", ["talkback", "accessibility", "content description",
             "font scaling", "labels"]),
    ("RN_GUIDE", ["accessibility", "accessible", "accessibilityLabel",
                  "accessibilityRole", "live region"]),
    ("DSKR", ["accessibility", "keyboard", "screen reader",
              "focus", "high contrast", "zoom"])]),
  ("license_scan", [
    ("PRD", ["scope", "deliverables", "constraints", "business goal"]),
    ("BIR", ["dependencies", "package", "libraries", "imports"]),
    ("FIR", ["dependencies", "package", "libraries", "imports"]),
    ("DIR", ["docker", "base image", "tools", "dependencies"]),
    ("DSKR", ["dependencies", "package", "framework", "libraries"]),
    ("IIR", ["dependencies", "cocoapods", "swift package", "libraries"]),
    ("AIR", ["dependencies", "gradle", "libraries", "imports"]),
    ("RN_GUIDE", ["dependencies", "package", "libraries", "imports"])]),
  ("verify", [
    ("TAR", ["test cases", "test results", "coverage", "pass",
             "fail", "skip", "assertions"]),
    ("BIR", ["api endpoints", "database schema", "authentication",
             "implementation"]),
    ("FIR", ["components", "routing", "state management",
             "implementation"]),
    ("DIR", ["ci/cd", "test execution", "deployment"])]),
  ("mobile_qa", [
    ("MUXD", ["screens", "navigation", "gestures", "interactions",
              "accessibility", "platforms"]),
    ("PRD", ["user stories", "acceptance criteria", "mobile requirements"]),
    ("TAD", ["api specifications", "authentication", "mobile"])]),
  ("ios_dev", [
    ("MUXD", ["ios", "screens", "navigation", "gestures",
              "accessibility", "components"]),
    ("PRD", ["user stories", "mobile requirements"]),
    ("MOBILE_TEST_PLAN", ["ios test", "xctest", "xcuitest",
                          "voiceover test", "accessibility test"])]),
  ("android_dev", [
    ("MUXD", ["android", "screens", "navigation", "gestures",
              "accessibility", "components"]),
    ("PRD", ["user stories", "mobile requirements"]),
    ("MOBILE_TEST_PLAN", ["android test", "junit", "espresso",
                          "talkback test", "accessibility test"])]),
  ("rn_arch_p1", [
    ("MUXD", ["screens", "navigation", "components", "gestures",
              "accessibility", "platforms"]),
    ("MOBILE_TEST_PLAN", ["react native test", "jest", "rntl",
                          "detox", "accessibility test"])]),
  ("rn_dev", [
    ("RNAD_P1", ["architecture", "navigation", "state management",
                 "api layer", "component hierarchy"]),
    ("RNAD_P2", ["testing", "deployment", "performance",
                 "optimization"]),
    ("MOBILE_TEST_PLAN", ["react native test", "jest", "rntl",
                          "detox", "component test"])]),
  ("mobile_devops", [
    ("RN_GUIDE", ["deployment", "configuration", "dependencies",
                  "environment", "build"]),
    ("SRR", ["mobile security", "code signing", "certificate",
             "secrets", "compliance"]),
    ("MOBILE_TEST_PLAN", ["ci integration", "test execution",
                          "automation"])]),
  ("mobile_pen_test", [
    ("SRR", ["mobile security", "threat model", "authentication",
             "data protection"]),
    ("IIR", ["keychain", "security", "networking", "storage",
             "authentication", "permissions"]),
    ("AIR", ["keystore", "security", "networking", "storage",
             "authentication", "permissions", "exported"]),
    ("RN_GUIDE", ["security", "storage", "authentication",
                  "bridge", "hermes", "async storage"]),
    ("MDIR", ["code signing", "secrets", "ci/cd", "build",
              "certificate"])]),
  ("mobile_scale", [
    ("MUXD", ["screens", "data", "offline", "sync"]),
    ("IIR", ["networking", "caching", "storage", "database",
             "background", "performance", "images"]),
    ("AIR", ["networking", "caching", "storage", "database",
             "background", "performance", "images"]),
    ("RN_GUIDE", ["networking", "caching", "storage", "database",
                  "background", "performance", "images", "bundle",
                  "lazy loading", "flatlist"]),
    ("MDIR", ["ci/cd", "ota", "update", "distribution"])]),
  ("mobile_verify", [
    ("MOBILE_TEST_PLAN", ["test cases", "acceptance criteria",
                          "coverage", "platforms"]),
    ("IIR", ["implementation", "screens", "features"]),
    ("AIR", ["implementation", "screens", "features"]),
    ("RN_GUIDE", ["implementation", "screens", "features"]),
    ("MDIR", ["ci/cd", "test execution"])])]

/-! ## smart_extract.py — unified API (get_context, get_multi_context) -/

/-- The tier-1 block of get_context: look up the consumer's wanted sections
for the artifact type in CONTEXT_MAP and run extract_sections when the wanted
list is non-empty. -/
def tier1Extract (full_text artifact_type consumer : String) (max_chars : Nat) :
    String :=
  let agent_map := (dget? CONTEXT_MAP consumer).getD []
  let wanted := (dget? agent_map artifact_type).getD []
  if wanted.isEmpty then "" else extract_sections full_text wanted max_chars

/-- get_context: the three-tier cascade.  `fs` is the file system,
`semantic` the ChromaDB oracle (query text to concatenated chunks) and
`chromaAvailable` the CHROMA_AVAILABLE flag; `project_id = ""` models a
missing/None project id (falsy), `semantic_queries = none` the default. -/
def get_context (fs : List (String × String)) (semantic : String → String)
    (chromaAvailable : Bool) (filepath artifact_type consumer project_id : String)
    (max_chars : Nat) (semantic_queries : Option (List String)) : String :=
  if filepath = "" then ""
  else
    match dget? fs filepath with
    | none => ""
    | some full_text =>
      let agent_map := (dget? CONTEXT_MAP consumer).getD []
      let wanted := (dget? agent_map artifact_type).getD []
      let extracted := tier1Extract full_text artifact_type consumer max_chars
      if 500 < pyLen extracted then pyTake extracted max_chars
      else
        let semantic_result :=
          if chromaAvailable ∧ project_id ≠ "" then
            let queries :=
              match semantic_queries with
              | some qs => if qs.isEmpty then wanted else qs
              | none => wanted
            if queries.isEmpty then ""
            else semantic ("Sections about: " ++ pyJoin ", " (queries.take 5))
          else ""
        if 500 < pyLen semantic_result then pyTake semantic_result max_chars
        else if max_chars < pyLen full_text then
          pyTake full_text max_chars ++
            "\n\n[...truncated — section extraction found no matching headings]"
        else full_text

/-- One iteration of the get_multi_context loop over the artifacts dict:
entries whose path is falsy are skipped, the rest get their extraction. -/
def multiStep (fs : List (String × String)) (semantic : String → String)
    (chromaAvailable : Bool) (consumer project_id : String)
    (max_chars_per_artifact : Nat) (result : List (String × String))
    (p : String × String) : List (String × String) :=
  if p.2 ≠ "" then
    dinsert result p.1
      (get_context fs semantic chromaAvailable p.2 p.1 consumer project_id
        max_chars_per_artifact none)
  else result

/-- get_multi_context: per-artifact extraction for one consumer. -/
def get_multi_context (fs : List (String × String)) (semantic : String → String)
    (chromaAvailable : Bool) (artifacts : List (String × String))
    (consumer project_id : String) (max_chars_per_artifact : Nat) :
    List (String × String) :=
  artifacts.foldl
    (multiStep fs semantic chromaAvailable consumer project_id
      max_chars_per_artifact) []

/-! ## Project context data model (orchestrator.py) -/

/-- One audit-log entry; the utcnow timestamp string of the source is
environment input and carries no information the claims depend on, so the
event and detail strings and the position in the append-only list model it. -/
structure AuditEvent where
  event : String
  detail : String
deriving DecidableEq

/-- An artifact record as read by the context loader (only the "type" and
"path" keys are consulted by the embedded code; provenance fields are
payload). A missing key reads as "" (falsy), as with dict.get(k, ""). -/
structure Artifact where
  type : String
  path : String
deriving DecidableEq

/-- A handoff outcome record appended to context["handoffs"]; the approved
record carries a path, the rejected one a reason (the respective other field
stays at its default, modelling the absent dict key). -/
structure HandoffRecord where
  handoff_id : String
  status : String
  path : String
  reason : Option String
deriving DecidableEq

/-- The project context aggregate, with the fields touched by the embedded
functions (classification and the structured spec are payload carried along
unchanged; next_action = "" models the key not yet present). -/
structure ProjectContext where
  project_id : String
  status : String
  classification : String
  artifacts : List Artifact
  handoffs : List HandoffRecord
  audit_log : List AuditEvent
  next_action : String
deriving DecidableEq

/-- log_event: append an event to the project audit log. -/
def log_event (context : ProjectContext) (event detail : String) :
    ProjectContext :=
  { context with audit_log := context.audit_log ++ [{ event := event, detail := detail }] }

/-- The while-loop of request_human_approval: first APPROVE/REJECT answer
decides; anything else re-prompts; an exhausted stream means the call is
still blocked (none). save_context persists the context as-is and is not a
separate observable here. -/
def approvalLoop (context : ProjectContext) (checkpoint_name : String) :
    List String → Option (Bool × ProjectContext)
  | [] => none
  | r :: rest =>
    let response := pyUpper (pyStrip r)
    if response = "APPROVE" then
      some (true, log_event context ("APPROVED: " ++ checkpoint_name) "")
    else if response = "REJECT" then
      some (false, log_event context ("REJECTED: " ++ checkpoint_name) "")
    else approvalLoop context checkpoint_name rest

/-- request_human_approval: notify (unmodelled side channel), log the
checkpoint request, persist, then block on the response stream until an
explicit APPROVE or REJECT. -/
def request_human_approval (context : ProjectContext)
    (checkpoint_name summary : String) (responses : List String) :
    Option (Bool × ProjectContext) :=
  approvalLoop
    (log_event context ("CHECKPOINT: " ++ checkpoint_name) "Awaiting human approval")
    checkpoint_name responses

/-! ## context_manager.py — load_agent_context -/

/-- One iteration of the artifact-path loop of load_agent_context: a record
with truthy type and path sets artifact_paths[type] = path. -/
def artifactPathsStep (m : List (String × String)) (a : Artifact) :
    List (String × String) :=
  if a.type ≠ "" ∧ a.path ≠ "" then dinsert m a.type a.path else m

/-- The artifact-path lookup built by load_agent_context (later records
overwrite earlier ones). -/
def artifactPathsOf (arts : List Artifact) : List (String × String) :=
  arts.foldl artifactPathsStep []

/-- One iteration of the requested-type loop of load_agent_context: keep a
requested type only when it resolves to a path that exists on disk. -/
def requestedStep (fs artifact_paths : List (String × String))
    (m : List (String × String)) (atype : String) : List (String × String) :=
  let path := (dget? artifact_paths atype).getD ""
  if path ≠ "" ∧ (dget? fs path).isSome then dinsert m atype path else m

/-- The requested-path filter of load_agent_context. -/
def requestedOf (fs artifact_paths : List (String × String))
    (artifact_types : List String) : List (String × String) :=
  artifact_types.foldl (requestedStep fs artifact_paths) []

/-- load_agent_context: resolve each requested artifact type to its recorded
path, drop the missing ones, and extract per-consumer context for the rest. -/
def load_agent_context (fs : List (String × String)) (semantic : String → String)
    (chromaAvailable : Bool) (context : ProjectContext) (consumer : String)
    (artifact_types : List String) (max_chars_per_artifact : Nat) :
    List (String × String) :=
  get_multi_context fs semantic chromaAvailable
    (requestedOf fs (artifactPathsOf context.artifacts) artifact_types)
    consumer context.project_id max_chars_per_artifact

/-! ## handoff.py — handoff protocol -/

/-- One artifact reference inside a handoff package (a dict with name,
description, path, type); path = "" models a missing or None "path" key,
which is falsy in the source. -/
structure HandoffArtifact where
  name : String
  description : String
  path : String
  type : String
deriving DecidableEq

/-- A handoff package dict. -/
structure HandoffPackage where
  handoff_id : String
  project_id : String
  created_at : String
  status : String
  delivering_crew : String
  receiving_crew : String
  summary : String
  artifacts : List HandoffArtifact
  acceptance_criteria : List String
  limitations : List String
  approved_by : Option String
  approved_at : Option String
  rejected_reason : Option String
deriving DecidableEq

/-- create_handoff_package: build a formal handoff package; the handoff_id is
computed from the project id and the two crew names; `now` stands for the
datetime.utcnow().isoformat() timestamp. -/
def create_handoff_package (context : ProjectContext)
    (delivering_crew receiving_crew : String) (artifacts : List HandoffArtifact)
    (summary : String) (acceptance_criteria limitations : List String)
    (now : String) : HandoffPackage :=
  { handoff_id :=
      "HO-" ++ context.project_id ++ "-" ++ delivering_crew ++ "2" ++ receiving_crew
    project_id := context.project_id
    created_at := now
    status := "PENDING_APPROVAL"
    delivering_crew := delivering_crew
    receiving_crew := receiving_crew
    summary := summary
    artifacts := artifacts
    acceptance_criteria := acceptance_criteria
    limitations := limitations
    approved_by := none
    approved_at := none
    rejected_reason := none }

/-- The file path save_handoff_package writes the package to (the directory
choice from the crew pair, then handoff_id.json inside it). -/
def save_handoff_package_path (package : HandoffPackage) : String :=
  let delivering := pyLower package.delivering_crew
  let receiving := pyLower package.receiving_crew
  let handoff_dir :=
    if delivering = "ds" ∧ receiving = "dev" then "ds/handoffs"
    else if delivering = "dev" ∧ receiving = "ds" then "dev/handoffs"
    else "shared/handoffs"
  handoff_dir ++ "/" ++ package.handoff_id ++ ".json"

/-- validate_handoff: collect all issues — a "Missing artifact" entry for
every referenced artifact whose path is truthy but absent from storage, one
entry for an empty acceptance-criteria list, one for a missing or too-short
summary — and succeed exactly when no issue was found. The context argument
is accepted and unused, as in the source. -/
def validate_handoff (fs : List (String × String)) (package : HandoffPackage)
    (context : ProjectContext) : Bool × List String :=
  let issues :=
    (package.artifacts.filterMap fun a =>
      if a.path ≠ "" ∧ (dget? fs a.path).isNone then
        some ("Missing artifact: " ++ a.path)
      else none)
    ++ (if package.acceptance_criteria.isEmpty then
          ["No acceptance criteria defined"] else [])
    ++ (if package.summary = "" ∨ pyLen package.summary < 20 then
          ["Summary too brief or missing"] else [])
  (issues.isEmpty, issues)

/-- The approval loop of request_handoff_approval: first APPROVE/REJECT
decides (REJECT reads one further line as the rejection reason); the package
is mutated and the decision logged and persisted; an exhausted stream models
the call still blocking on input. Returns (approved?, context, package,
unconsumed responses). -/
def handoffApprovalLoop (context : ProjectContext) (package : HandoffPackage)
    (now : String) : List String → Option (Bool × ProjectContext × HandoffPackage × List String)
  | [] => none
  | r :: rest =>
    let response := pyUpper (pyStrip r)
    if response = "APPROVE" then
      let package := { package with status := "APPROVED", approved_at := some now }
      some (true,
        log_event context ("HANDOFF APPROVED: " ++ package.handoff_id) "",
        package, rest)
    else if response = "REJECT" then
      match rest with
      | [] => none
      | reasonLine :: rest2 =>
        let reason := pyStrip reasonLine
        let package :=
          { package with status := "REJECTED", rejected_reason := some reason }
        some (false,
          log_event context ("HANDOFF REJECTED: " ++ package.handoff_id) reason,
          package, rest2)
    else handoffApprovalLoop context package now rest

/-- The observable outcome of one execute_handoff call: the updated context,
the package after any mutation, the package files written during the call
(path and content at the moment of writing), and the unconsumed input. -/
structure ExecResult where
  context : ProjectContext
  package : HandoffPackage
  written : List (String × HandoffPackage)
  remaining : List String
deriving DecidableEq

/-- execute_handoff: validate; on failure log the issue list and persist,
touching nothing else; otherwise save the package file, request human
approval, then append the outcome record and move the status to the
receiving crew (approval) or back to the delivering crew (rejection).
Returns none when the approval prompt never receives a decision. -/
def execute_handoff (fs : List (String × String)) (context : ProjectContext)
    (package : HandoffPackage) (responses : List String) (now : String) :
    Option ExecResult :=
  let v := validate_handoff fs package context
  if v.1 = false then
    some { context := log_event context "HANDOFF_VALIDATION_FAILED" (pyJoin "; " v.2)
           package := package
           written := []
           remaining := responses }
  else
    let package_path := save_handoff_package_path package
    let written := [(package_path, package)]
    let context := log_event context "HANDOFF_PACKAGE_SAVED" package_path
    match handoffApprovalLoop context package now responses with
    | none => none
    | some (approved, context, package, remaining) =>
      if approved then
        let receiving := package.receiving_crew
        let context :=
          { context with
            handoffs := context.handoffs ++
              [{ handoff_id := package.handoff_id, status := "APPROVED",
                 path := package_path, reason := none }]
            status := "ACTIVE_" ++ receiving ++ "_PHASE2"
            next_action := receiving ++ "_CREW: Begin work on received artifacts" }
        some { context := context, package := package, written := written,
               remaining := remaining }
      else
        let delivering := package.delivering_crew
        let context :=
          { context with
            handoffs := context.handoffs ++
              [{ handoff_id := package.handoff_id, status := "REJECTED",
                 path := "", reason := package.rejected_reason }]
            status := "RETURNED_TO_" ++ delivering
            next_action := delivering ++ "_CREW: Address rejection and resubmit handoff" }
        some { context := context, package := package, written := written,
               remaining := remaining }

/-! ## Concrete fixtures used by counterexamples and witnesses -/

/-- A freshly initiated project context with no history. -/
def ctx0 : ProjectContext :=
  { project_id := "P0", status := "INITIATED", classification := "DEV",
    artifacts := [], handoffs := [], audit_log := [], next_action := "" }

/-- A context holding a BIR artifact and then its BIR_R revision. -/
def ctxC1 : ProjectContext :=
  { ctx0 with
    project_id := "P1"
    artifacts := [{ type := "BIR", path := "p1" }, { type := "BIR_R", path := "p2" }] }

/-- Storage for ctxC1: both artifact files exist with distinct content. -/
def fsC1 : List (String × String) :=
  [("p1", "backend report one"), ("p2", "backend report two")]

/-- A document whose tier-1 extraction for (frontend_dev, BIR) is exactly 500
characters long: the header contributes 23 and the section body 477. -/
def docC2 : String :=
  "# API Endpoints\n" ++ String.mk (List.replicate 477 'x')

/-- The same shape with a 478-character body: tier-1 yields 501 characters. -/
def docC2w : String :=
  "# API Endpoints\n" ++ String.mk (List.replicate 478 'x')

/-- An invalid handoff package: no acceptance criteria. -/
def pkgC4 : HandoffPackage :=
  create_handoff_package ctx0 "DS" "DEV" []
    "This summary is definitely long enough." [] [] "t0"

/-- A package whose only artifact reference has no recorded path. -/
def pkgC5 : HandoffPackage :=
  create_handoff_package ctx0 "DS" "DEV"
    [{ name := "Doc", description := "d", path := "", type := "report" }]
    "This summary is definitely long enough." ["criterion one"] [] "t0"

/-- The validation-completeness scenario of the spec: three referenced
artifacts of which two are missing, and no acceptance criteria. -/
def pkgC5w : HandoffPackage :=
  create_handoff_package ctx0 "DS" "DEV"
    [{ name := "A", description := "a", path := "pA", type := "report" },
     { name := "B", description := "b", path := "pB", type := "report" },
     { name := "C", description := "c", path := "pC", type := "report" }]
    "This summary is definitely long enough." [] [] "t0"

/-- Storage for pkgC5w: only the first referenced artifact exists. -/
def fsC5w : List (String × String) := [("pA", "content A")]

/-- A project context for the handoff idempotence claim. -/
def ctxC6 : ProjectContext := { ctx0 with project_id := "P6" }

/-- Storage for pkgC6: the referenced artifact exists. -/
def fsC6 : List (String × String) := [("p6", "dataset")]

/-- A valid handoff package from the DS crew to the DEV crew. -/
def pkgC6 : HandoffPackage :=
  create_handoff_package ctxC6 "DS" "DEV"
    [{ name := "A", description := "d", path := "p6", type := "report" }]
    "This summary is long enough for validation." ["criterion one"] [] "t0"

/-- The approved handoff record that executing pkgC6 with an APPROVE answer
produces. -/
def recC6 : HandoffRecord :=
  { handoff_id := "HO-P6-DS2DEV", status := "APPROVED",
    path := "ds/handoffs/HO-P6-DS2DEV.json", reason := none }

/-- ctxC6 after one approved execution of pkgC6: the approved record is
already present. -/
def ctxC6b : ProjectContext := { ctxC6 with handoffs := [recC6] }

/-- pkgC6 after its approval. -/
def pkgC6b : HandoffPackage :=
  { pkgC6 with status := "APPROVED", approved_at := some "t1" }

/-- A document with headings at levels [1, 2, 2, 3, 1]. -/
def docC7 : String :=
  "# A\na1\n## B\nb1\n## C\nc1\n### D\nd1\n# E\ne1"

/-- A document with one 600-character section. -/
def docC8a : String :=
  "# A\n" ++ String.mk (List.replicate 600 'x')

/-- A document with a 400-character section followed by a 300-character one. -/
def docC8b : String :=
  "# A\n" ++ String.mk (List.replicate 400 'a') ++ "\n# B\n" ++
    String.mk (List.replicate 300 'b')

/-- A document whose first heading has an empty span: "# Alpha" is
immediately followed by a sibling level-1 heading. -/
def docC10 : String :=
  "# Alpha\n# Beta\nbody"

/-- Storage holding docC2 at path a.md. -/
def fsC2 : List (String × String) := [("a.md", docC2)]

/-- Storage holding docC2w at path a.md. -/
def fsC2w : List (String × String) := [("a.md", docC2w)]

/-- Specification-side resolution for claim C1: the path of the last
appended artifact whose type is exactly the requested one (records with an
empty path are ignored, as the loader ignores falsy paths). -/
def lastExactPath (arts : List Artifact) (atype : String) : Option String :=
  ((arts.filter fun a => a.type == atype && a.path != "").getLast?).map
    (fun a => a.path)

/-- The string a ends with the string suf. -/
def strEndsWith (a suf : String) : Prop := ∃ y, a = y ++ suf

/-! ## Dict lemmas -/

theorem dget?_dinsert_self {α : Type} (m : List (String × α)) (k : String) (v : α) :
    dget? (dinsert m k v) k = some v := by
  induction m with
  | nil => simp [dinsert, dget?]
  | cons p rest ih =>
    obtain ⟨k', v'⟩ := p
    by_cases h : k' = k
    · simp [dinsert, h, dget?]
    · simp [dinsert, h, dget?, ih]

theorem dget?_dinsert_ne {α : Type} (m : List (String × α)) (k k' : String)
    (v : α) (h : k' ≠ k) : dget? (dinsert m k v) k' = dget? m k' := by
  induction m with
  | nil => simp [dinsert, dget?, Ne.symm h]
  | cons p rest ih =>
    obtain ⟨k'', v''⟩ := p
    by_cases hk : k'' = k
    · subst hk
      simp [dinsert, dget?, Ne.symm h]
    · simp [dinsert, hk, dget?, ih]

theorem dget?_eq_none_iff {α : Type} (m : List (String × α)) (k : String) :
    dget? m k = none ↔ ∀ p ∈ m, p.1 ≠ k := by
  induction m with
  | nil => simp [dget?]
  | cons p rest ih =>
    obtain ⟨k', v'⟩ := p
    by_cases h : k' = k
    · simp [dget?, h]
    · simp [dget?, h, ih]

/-! ## Approval-loop lemmas -/

theorem approvalLoop_skip (ctx : ProjectContext) (name : String)
    (junk tail : List String)
    (h : ∀ r ∈ junk,
      pyUpper (pyStrip r) ≠ "APPROVE" ∧ pyUpper (pyStrip r) ≠ "REJECT") :
    approvalLoop ctx name (junk ++ tail) = approvalLoop ctx name tail := by
  induction junk with
  | nil => rfl
  | cons j t ih =>
    have hj := h j (List.mem_cons_self j t)
    rw [List.cons_append]
    show approvalLoop ctx name (j :: (t ++ tail)) = _
    simp only [approvalLoop]
    rw [if_neg hj.1, if_neg hj.2]
    exact ih fun r hr => h r (List.mem_cons_of_mem j hr)

/-- Claim C9: request_human_approval returns only after an explicit APPROVE
or REJECT decision is supplied — any other input re-prompts and there is no
timeout path, so a response stream with no decision leaves the call blocked
(none); once a decision arrives, the audit log holds the checkpoint request
event followed by the matching decision event, and the returned Boolean is
true exactly for APPROVE. -/
theorem claim_C9 :
    (∀ (ctx : ProjectContext) (name summary : String) (responses : List String),
      (∀ r ∈ responses,
        pyUpper (pyStrip r) ≠ "APPROVE" ∧ pyUpper (pyStrip r) ≠ "REJECT") →
      request_human_approval ctx name summary responses = none) ∧
    (∀ (ctx : ProjectContext) (name summary : String) (junk : List String)
        (d : String) (rest : List String),
      (∀ r ∈ junk,
        pyUpper (pyStrip r) ≠ "APPROVE" ∧ pyUpper (pyStrip r) ≠ "REJECT") →
      pyUpper (pyStrip d) = "APPROVE" →
      request_human_approval ctx name summary (junk ++ d :: rest) =
        some (true, { ctx with audit_log := ctx.audit_log ++
          [{ event := "CHECKPOINT: " ++ name, detail := "Awaiting human approval" },
           { event := "APPROVED: " ++ name, detail := "" }] })) ∧
    (∀ (ctx : ProjectContext) (name summary : String) (junk : List String)
        (d : String) (rest : List String),
      (∀ r ∈ junk,
        pyUpper (pyStrip r) ≠ "APPROVE" ∧ pyUpper (pyStrip r) ≠ "REJECT") →
      pyUpper (pyStrip d) = "REJECT" →
      request_human_approval ctx name summary (junk ++ d :: rest) =
        some (false, { ctx with audit_log := ctx.audit_log ++
          [{ event := "CHECKPOINT: " ++ name, detail := "Awaiting human approval" },
           { event := "REJECTED: " ++ name, detail := "" }] })) := by
  refine ⟨?_, ?_, ?_⟩
  · intro ctx name summary responses h
    have : responses ++ [] = responses := List.append_nil responses
    rw [request_human_approval, ← this, approvalLoop_skip _ _ _ _ h]
    rfl
  · intro ctx name summary junk d rest hjunk hd
    rw [request_human_approval, approvalLoop_skip _ _ _ _ hjunk]
    simp only [approvalLoop, hd]
    simp [log_event, List.append_assoc]
  · intro ctx name summary junk d rest hjunk hd
    rw [request_human_approval, approvalLoop_skip _ _ _ _ hjunk]
    simp only [approvalLoop, hd]
    simp [log_event, List.append_assoc]

/-- Witness for C9: a junk answer followed by "approve" returns true with
the two audit events in order. -/
theorem claim_C9_witness :
    request_human_approval ctx0 "CLASSIFY" "sum" ["huh", "approve"] =
      some (true, { ctx0 with audit_log :=
        [{ event := "CHECKPOINT: CLASSIFY", detail := "Awaiting human approval" },
         { event := "APPROVED: CLASSIFY", detail := "" }] }) := by
  have h := claim_C9.2.1 ctx0 "CLASSIFY" "sum" ["huh"] "approve" []
    (by decide) (by decide)
  simpa [ctx0] using h

/-- Claim C4, counterexample: the original claim says a failed validation
leaves the audit_log unchanged and persists nothing; on a package with no
acceptance criteria, execute_handoff in fact appends a
HANDOFF_VALIDATION_FAILED audit event (and persists the context carrying
it), so the audit log differs from the original one. -/
theorem claim_C4_counterexample :
    (execute_handoff [] ctx0 pkgC4 [] "t1").map (fun r => r.context.audit_log) =
      some [{ event := "HANDOFF_VALIDATION_FAILED",
              detail := "No acceptance criteria defined" }] ∧
    ctx0.audit_log = [] ∧
    (execute_handoff [] ctx0 pkgC4 [] "t1").map (fun r => r.context.audit_log) ≠
      some ctx0.audit_log := by
  refine ⟨by decide, by decide, by decide⟩

/-- Claim C4 (amended): when validation fails, execute_handoff aborts before
the package is saved and before approval is requested — status, handoffs and
next_action are unchanged, no handoff package file is written, the package
itself is untouched and no input is consumed; the one side effect is a
HANDOFF_VALIDATION_FAILED event appended to the audit log (the context is
then persisted carrying that event). -/
theorem claim_C4_amended (fs : List (String × String)) (ctx : ProjectContext)
    (package : HandoffPackage) (responses : List String) (now : String)
    (h : (validate_handoff fs package ctx).1 = false) :
    ∃ r, execute_handoff fs ctx package responses now = some r ∧
      r.context.status = ctx.status ∧
      r.context.handoffs = ctx.handoffs ∧
      r.context.next_action = ctx.next_action ∧
      r.written = [] ∧
      r.package = package ∧
      r.remaining = responses ∧
      r.context.audit_log = ctx.audit_log ++
        [{ event := "HANDOFF_VALIDATION_FAILED",
           detail := pyJoin "; " (validate_handoff fs package ctx).2 }] := by
  refine ⟨{ context := log_event ctx "HANDOFF_VALIDATION_FAILED"
              (pyJoin "; " (validate_handoff fs package ctx).2)
            package := package
            written := []
            remaining := responses },
          ?_, ?_, ?_, ?_, rfl, rfl, rfl, ?_⟩
  · simp [execute_handoff, h]
  · simp [log_event]
  · simp [log_event]
  · simp [log_event]
  · simp [log_event]

/-- Witness for C4 (amended), applied to the concrete invalid package. -/
theorem claim_C4_witness :
    ∃ r, execute_handoff [] ctx0 pkgC4 ["APPROVE"] "t1" = some r ∧
      r.context.status = ctx0.status ∧
      r.context.handoffs = ctx0.handoffs ∧
      r.context.next_action = ctx0.next_action ∧
      r.written = [] ∧
      r.package = pkgC4 ∧
      r.remaining = ["APPROVE"] ∧
      r.context.audit_log = ctx0.audit_log ++
        [{ event := "HANDOFF_VALIDATION_FAILED",
           detail := pyJoin "; " (validate_handoff [] pkgC4 ctx0).2 }] :=
  claim_C4_amended [] ctx0 pkgC4 ["APPROVE"] "t1" (by decide)

/-- Claim C5, counterexample: the original claim promises one issue for
every referenced artifact that does not resolve to existing content; a
package whose only artifact reference carries no path at all (path falsy)
resolves to nothing, yet validate_handoff reports no issue and returns ok. -/
theorem claim_C5_counterexample :
    validate_handoff [] pkgC5 ctx0 = (true, []) ∧
    pkgC5.artifacts =
      [{ name := "Doc", description := "d", path := "", type := "report" }] := by
  refine ⟨by decide, by decide⟩

/-- Claim C5 (amended): validate_handoff returns ok exactly when its issue
list is empty, and in a single call the list contains an entry for every
referenced artifact whose recorded path is non-empty but absent from
storage (artifacts without a recorded path are not checked), an entry when
the acceptance-criteria list is empty, and an entry when the summary is
missing or shorter than 20 characters. -/
theorem claim_C5_amended (fs : List (String × String)) (package : HandoffPackage)
    (ctx : ProjectContext) :
    ((validate_handoff fs package ctx).1 = true ↔
      (validate_handoff fs package ctx).2 = []) ∧
    (∀ a ∈ package.artifacts, a.path ≠ "" → dget? fs a.path = none →
      ("Missing artifact: " ++ a.path) ∈ (validate_handoff fs package ctx).2) ∧
    (package.acceptance_criteria = [] →
      "No acceptance criteria defined" ∈ (validate_handoff fs package ctx).2) ∧
    ((package.summary = "" ∨ pyLen package.summary < 20) →
      "Summary too brief or missing" ∈ (validate_handoff fs package ctx).2) := by
  refine ⟨?_, ?_, ?_, ?_⟩
  · simp [validate_handoff, List.isEmpty_iff]
  · intro a ha h1 h2
    simp only [validate_handoff]
    refine List.mem_append_left _ (List.mem_append_left _ ?_)
    exact List.mem_filterMap.mpr ⟨a, ha, by simp [h1, h2]⟩
  · intro hcrit
    simp only [validate_handoff]
    refine List.mem_append_left _ (List.mem_append_right _ ?_)
    simp [hcrit]
  · intro hsum
    simp only [validate_handoff]
    refine List.mem_append_right _ ?_
    rcases hsum with h | h <;> simp [h]

/-- Witness for C5 (amended): the spec's completeness scenario — three
referenced artifacts with two missing and empty acceptance criteria — yields
all three issues in the one call, and ok is false. -/
theorem claim_C5_witness :
    ("Missing artifact: pB" ∈ (validate_handoff fsC5w pkgC5w ctx0).2) ∧
    ("Missing artifact: pC" ∈ (validate_handoff fsC5w pkgC5w ctx0).2) ∧
    ("No acceptance criteria defined" ∈ (validate_handoff fsC5w pkgC5w ctx0).2) ∧
    (validate_handoff fsC5w pkgC5w ctx0).1 ≠ true := by
  have h := claim_C5_amended fsC5w pkgC5w ctx0
  have hB := h.2.1 { name := "B", description := "b", path := "pB", type := "report" }
    (by decide) (by decide) (by decide)
  have hC := h.2.1 { name := "C", description := "c", path := "pC", type := "report" }
    (by decide) (by decide) (by decide)
  have hcrit := h.2.2.1 (by decide)
  exact ⟨hB, hC, hcrit, fun ht => by simp [h.1.mp ht] at hcrit⟩

/-- Claim C6, counterexample: re-executing an already-approved handoff does
create a duplicate active transition — after approving pkgC6 once, running
execute_handoff again on the approved package appends a second APPROVED
record with the same handoff_id to context["handoffs"]. -/
theorem claim_C6_counterexample :
    ((execute_handoff fsC6 ctxC6 pkgC6 ["APPROVE"] "t1").bind fun r1 =>
      (execute_handoff fsC6 r1.context r1.package ["APPROVE"] "t2").map fun r2 =>
        r2.context.handoffs.map fun hrec => (hrec.handoff_id, hrec.status)) =
      some [("HO-P6-DS2DEV", "APPROVED"), ("HO-P6-DS2DEV", "APPROVED")] := by
  decide

/-- Claim C6 (amended): the handoff_id is deterministic in the project id
and the crew pair (packages built for the same project and crews share it,
whatever their payload); but execute_handoff itself has no re-execution
guard: any approved execution of a valid package unconditionally appends a
fresh APPROVED record and re-runs the receiving-crew status assignment, so
re-executing an already-approved handoff duplicates the record (only the
package file at the deterministic path is overwritten rather than
duplicated) and callers must check the existing handoff status themselves. -/
theorem claim_C6_amended :
    (∀ (ctx1 ctx2 : ProjectContext) (d r : String)
        (a1 : List HandoffArtifact) (s1 : String) (ac1 l1 : List String) (n1 : String)
        (a2 : List HandoffArtifact) (s2 : String) (ac2 l2 : List String) (n2 : String),
      ctx1.project_id = ctx2.project_id →
      (create_handoff_package ctx1 d r a1 s1 ac1 l1 n1).handoff_id =
        (create_handoff_package ctx2 d r a2 s2 ac2 l2 n2).handoff_id) ∧
    (∀ (fs : List (String × String)) (ctx : ProjectContext)
        (package : HandoffPackage) (rest : List String) (now : String),
      (validate_handoff fs package ctx).1 = true →
      (execute_handoff fs ctx package ("APPROVE" :: rest) now).map
          (fun res => res.context.handoffs) =
        some (ctx.handoffs ++
          [{ handoff_id := package.handoff_id, status := "APPROVED",
             path := save_handoff_package_path package, reason := none }])) := by
  constructor
  · intro ctx1 ctx2 d r a1 s1 ac1 l1 n1 a2 s2 ac2 l2 n2 h
    simp [create_handoff_package, h]
  · intro fs ctx package rest now h
    have hA : pyUpper (pyStrip "APPROVE") = "APPROVE" := by decide
    simp [execute_handoff, h, handoffApprovalLoop, hA, log_event]

/-- Witness for C6 (amended): id determinism at two concrete packages, and
the duplicate append on re-executing the already-approved pkgC6b against a
context that already holds its approved record. -/
theorem claim_C6_witness :
    (create_handoff_package ctxC6 "DS" "DEV" [] "s" [] [] "x").handoff_id =
      (create_handoff_package ctxC6 "DS" "DEV" pkgC6.artifacts "another summary"
        ["c"] [] "y").handoff_id ∧
    (execute_handoff fsC6 ctxC6b pkgC6b ["APPROVE"] "t2").map
        (fun res => res.context.handoffs) = some [recC6, recC6] := by
  constructor
  · exact claim_C6_amended.1 ctxC6 ctxC6 "DS" "DEV" [] "s" [] [] "x"
      pkgC6.artifacts "another summary" ["c"] [] "y" rfl
  · have h := claim_C6_amended.2 fsC6 ctxC6b pkgC6b [] "t2" (by decide)
    rw [h]
    decide

/-! ## Loader resolution lemmas -/

theorem artifactPathsOf_eq_lastExactPath (arts : List Artifact) (atype : String)
    (h : atype ≠ "") :
    dget? (artifactPathsOf arts) atype = lastExactPath arts atype := by
  induction arts using List.reverseRecOn with
  | nil => rfl
  | append_singleton l a ih =>
    have hfold : artifactPathsOf (l ++ [a]) =
        artifactPathsStep (artifactPathsOf l) a := by
      simp [artifactPathsOf, List.foldl_append]
    rw [hfold]
    by_cases hmatch : a.type = atype ∧ a.path ≠ ""
    · obtain ⟨ht, hp⟩ := hmatch
      have hlast : lastExactPath (l ++ [a]) atype = some a.path := by
        simp [lastExactPath, List.filter_append, ht, hp]
      have hty : a.type ≠ "" := by rw [ht]; exact h
      rw [hlast, artifactPathsStep, if_pos ⟨hty, hp⟩, ht, dget?_dinsert_self]
    · have hcond : (a.type == atype && a.path != "") = false := by
        rcases not_and_or.mp hmatch with h1 | h1
        · simp [h1]
        · simp only [ne_eq, not_not] at h1
          simp [h1]
      have hlast : lastExactPath (l ++ [a]) atype = lastExactPath l atype := by
        simp [lastExactPath, List.filter_append, hcond]
      rw [hlast, artifactPathsStep]
      split
      · rename_i hstep
        have hne : atype ≠ a.type := by
          intro he
          rcases not_and_or.mp hmatch with h1 | h1
          · exact h1 he.symm
          · exact h1 hstep.2
        rw [dget?_dinsert_ne _ _ _ _ hne, ih]
      · exact ih

theorem artifactPathsOf_none (arts : List Artifact) (atype : String)
    (h : ∀ a ∈ arts, a.type ≠ atype) :
    dget? (artifactPathsOf arts) atype = none := by
  suffices H : ∀ (l : List Artifact) (acc : List (String × String)),
      (∀ a ∈ l, a.type ≠ atype) → dget? acc atype = none →
      dget? (l.foldl artifactPathsStep acc) atype = none from H arts [] h rfl
  intro l
  induction l with
  | nil => intro acc _ h2; exact h2
  | cons a t ih =>
    intro acc h1 h2
    rw [List.foldl_cons]
    apply ih _ (fun b hb => h1 b (List.mem_cons_of_mem a hb))
    rw [artifactPathsStep]
    split
    · rw [dget?_dinsert_ne _ _ _ _ (Ne.symm (h1 a (List.mem_cons_self a t)))]
      exact h2
    · exact h2

theorem dget?_foldl_requestedStep_none (fs ap : List (String × String))
    (atype : String)
    (hres : ∀ p, dget? ap atype = some p → (dget? fs p).isSome = false) :
    ∀ (types : List String) (acc : List (String × String)),
      dget? acc atype = none →
      dget? (types.foldl (requestedStep fs ap) acc) atype = none := by
  intro types
  induction types with
  | nil => intro acc h; exact h
  | cons t rest ih =>
    intro acc h
    rw [List.foldl_cons]
    apply ih
    by_cases ht : t = atype
    · subst ht
      rw [requestedStep]
      cases hp : dget? ap t with
      | none => simpa [hp] using h
      | some p => simpa [hp, hres p hp] using h
    · rw [requestedStep]
      split
      · rw [dget?_dinsert_ne _ _ _ _ (fun he => ht he.symm)]
        exact h
      · exact h

theorem dget?_foldl_multiStep_none (fs : List (String × String))
    (semantic : String → String) (chromaAvailable : Bool)
    (consumer project_id : String) (maxc : Nat) (k : String) :
    ∀ (arts : List (String × String)) (acc : List (String × String)),
      (∀ p ∈ arts, p.1 ≠ k) → dget? acc k = none →
      dget? (arts.foldl
        (multiStep fs semantic chromaAvailable consumer project_id maxc) acc) k =
        none := by
  intro arts
  induction arts with
  | nil => intro acc _ h; exact h
  | cons p rest ih =>
    intro acc hne h
    rw [List.foldl_cons]
    apply ih _ (fun q hq => hne q (List.mem_cons_of_mem p hq))
    rw [multiStep]
    split
    · rw [dget?_dinsert_ne _ _ _ _ (Ne.symm (hne p (List.mem_cons_self p rest)))]
      exact h
    · exact h

/-- Claim C1, counterexample: after appending an artifact of type BIR and
then one of type BIR_R, the context loader resolves "BIR" to the BIR
artifact (its text), not to the BIR_R revision the claim demands: exact key
matching only, no revision-suffix awareness. -/
theorem claim_C1_counterexample :
    load_agent_context fsC1 (fun _ => "") false ctxC1 "frontend_dev" ["BIR"] 6000 =
      [("BIR", "backend report one")] ∧
    ctxC1.artifacts =
      [{ type := "BIR", path := "p1" }, { type := "BIR_R", path := "p2" }] ∧
    get_context fsC1 (fun _ => "") false "p2" "BIR" "frontend_dev" "P1" 6000 none =
      "backend report two" ∧
    ("backend report one" : String) ≠ "backend report two" := by
  refine ⟨by decide, by decide, by decide, by decide⟩

/-- Claim C1 (amended): the context loader resolves a requested type T to
the most recently appended artifact whose type EQUALS T exactly (records
with a falsy type or path are ignored); a revision type such as BIR_R is a
separate key and is never returned for the request "BIR" — each revision
must be requested under its own type code. -/
theorem claim_C1_amended :
    (∀ (arts : List Artifact) (atype : String), atype ≠ "" →
      dget? (artifactPathsOf arts) atype = lastExactPath arts atype) ∧
    load_agent_context fsC1 (fun _ => "") false ctxC1 "frontend_dev"
        ["BIR", "BIR_R"] 6000 =
      [("BIR", "backend report one"), ("BIR_R", "backend report two")] := by
  exact ⟨artifactPathsOf_eq_lastExactPath, by decide⟩

/-- Witness for C1 (amended): the loader's resolution map agrees with the
last-exact-type specification on the concrete BIR/BIR_R context. -/
theorem claim_C1_witness :
    dget? (artifactPathsOf ctxC1.artifacts) "BIR" =
      lastExactPath ctxC1.artifacts "BIR" ∧
    lastExactPath ctxC1.artifacts "BIR" = some "p1" := by
  exact ⟨claim_C1_amended.1 ctxC1.artifacts "BIR" (by decide), by decide⟩

/-- Claim C3: a requested artifact type with no matching record in the
project context, or whose recorded path does not exist in storage, is simply
absent as a key from the loader's result; the loader is a total function, so
no exception path exists for absence. -/
theorem claim_C3 (fs : List (String × String)) (semantic : String → String)
    (chromaAvailable : Bool) (ctx : ProjectContext) (consumer : String)
    (artifact_types : List String) (maxc : Nat) (atype : String)
    (h : (∀ a ∈ ctx.artifacts, a.type ≠ atype) ∨
         (∀ p, dget? (artifactPathsOf ctx.artifacts) atype = some p →
            dget? fs p = none)) :
    dget? (load_agent_context fs semantic chromaAvailable ctx consumer
      artifact_types maxc) atype = none := by
  have hres : ∀ p, dget? (artifactPathsOf ctx.artifacts) atype = some p →
      (dget? fs p).isSome = false := by
    rcases h with h | h
    · intro p hp
      rw [artifactPathsOf_none ctx.artifacts atype h] at hp
      cases hp
    · intro p hp
      rw [h p hp]
      rfl
  have hreq : dget? (requestedOf fs (artifactPathsOf ctx.artifacts) artifact_types)
      atype = none :=
    dget?_foldl_requestedStep_none _ _ _ hres artifact_types [] rfl
  rw [load_agent_context, get_multi_context]
  exact dget?_foldl_multiStep_none _ _ _ _ _ _ _ _ []
    ((dget?_eq_none_iff _ _).mp hreq) rfl

/-- Witness for C3: requesting TIP from a context that only holds BIR and
BIR_R artifacts leaves the TIP key absent. -/
theorem claim_C3_witness :
    dget? (load_agent_context fsC1 (fun _ => "") false ctxC1 "qa_lead"
      ["TIP"] 6000) "TIP" = none :=
  claim_C3 fsC1 (fun _ => "") false ctxC1 "qa_lead" ["TIP"] 6000 "TIP"
    (Or.inl (by decide))

/-- Claim C2, counterexample: with a tier-1 extraction of exactly 500
characters ("at least the threshold"), get_context does not accept it — the
source requires strictly more than 500 — and returns the tier-3 raw document
instead. -/
theorem claim_C2_counterexample :
    pyLen (tier1Extract docC2 "BIR" "frontend_dev" 6000) = 500 ∧
    get_context fsC2 (fun _ => "") false "a.md" "BIR" "frontend_dev" "" 6000 none =
      docC2 ∧
    docC2 ≠ pyTake (tier1Extract docC2 "BIR" "frontend_dev" 6000) 6000 := by
  refine ⟨by decide, by decide, by decide⟩

/-- Claim C2 (amended): whenever tier-1 extraction yields strictly more than
500 characters, get_context returns exactly that extraction clipped to
max_chars, for every semantic oracle and availability flag — so neither the
tier-2 semantic search nor the tier-3 raw-prefix fallback influences the
result. -/
theorem claim_C2_amended (fs : List (String × String)) (semantic : String → String)
    (chromaAvailable : Bool) (filepath artifact_type consumer project_id : String)
    (max_chars : Nat) (semantic_queries : Option (List String)) (full_text : String)
    (hpath : filepath ≠ "") (hfs : dget? fs filepath = some full_text)
    (hlen : 500 < pyLen (tier1Extract full_text artifact_type consumer max_chars)) :
    get_context fs semantic chromaAvailable filepath artifact_type consumer
      project_id max_chars semantic_queries =
      pyTake (tier1Extract full_text artifact_type consumer max_chars) max_chars := by
  simp [get_context, hpath, hfs, hlen]

/-- Witness for C2 (amended): a 501-character tier-1 extraction is returned
as is. -/
theorem claim_C2_witness :
    get_context fsC2w (fun _ => "") false "a.md" "BIR" "frontend_dev" "" 6000 none =
      pyTake (tier1Extract docC2w "BIR" "frontend_dev" 6000) 6000 :=
  claim_C2_amended fsC2w (fun _ => "") false "a.md" "BIR" "frontend_dev" "" 6000
    none docC2w (by decide) (by decide) (by decide)

/-! ## Section-span lemmas -/

theorem dinsert_values_ne (m : List (String × String)) (k v : String)
    (hm : ∀ k' v', dget? m k' = some v' → v' ≠ "") (hv : v ≠ "") :
    ∀ k' v', dget? (dinsert m k v) k' = some v' → v' ≠ "" := by
  intro k' v' h'
  by_cases he : k' = k
  · subst he
    rw [dget?_dinsert_self] at h'
    cases h'
    exact hv
  · rw [dget?_dinsert_ne _ _ _ _ he] at h'
    exact hm _ _ h'

theorem parseStep_values_ne (lines : List String)
    (headings : List (Nat × Nat × String)) (acc : List (String × String))
    (p : Nat × Nat × Nat × String)
    (hm : ∀ k v, dget? acc k = some v → v ≠ "") :
    ∀ k v, dget? (parseStep lines headings acc p) k = some v → v ≠ "" := by
  rw [parseStep]
  split
  · rename_i hcontent
    split
    · exact dinsert_values_ne _ _ _ (dinsert_values_ne _ _ _ hm hcontent) hcontent
    · exact dinsert_values_ne _ _ _ hm hcontent
  · exact hm

theorem parse_fold_values_ne (lines : List String)
    (headings : List (Nat × Nat × String)) :
    ∀ (l : List (Nat × Nat × Nat × String)) (acc : List (String × String)),
      (∀ k v, dget? acc k = some v → v ≠ "") →
      ∀ k v, dget? (l.foldl (parseStep lines headings) acc) k = some v → v ≠ "" := by
  intro l
  induction l with
  | nil => intro acc h; exact h
  | cons p t ih =>
    intro acc h
    rw [List.foldl_cons]
    exact ih _ (parseStep_values_ne lines headings acc p h)

/-- Claim C7: the span of each heading runs from just after the heading line
to the first later heading whose level is ≤ its own (parts 1 and 2
characterize the end-of-span scan parse_sections uses: it returns the line
of the first qualifying later heading, and the line count when none
qualifies); concretely, on a document with heading levels [1, 2, 2, 3, 1],
the first level-1 section contains its own text plus all level-2/3
descendants and excludes the second level-1 section's content. -/
theorem claim_C7 :
    (∀ (level numLines : Nat) (hs : List (Nat × Nat × String)) (j ln' lvl' : Nat)
        (raw' : String),
      hs.get? j = some (ln', lvl', raw') → lvl' ≤ level →
      (∀ k q, k < j → hs.get? k = some q → level < q.2.1) →
      endLineScan level numLines hs = ln') ∧
    (∀ (level numLines : Nat) (hs : List (Nat × Nat × String)),
      (∀ q ∈ hs, level < q.2.1) → endLineScan level numLines hs = numLines) ∧
    (findHeadings (linesOf docC7)).map (fun h => h.2.1) = [1, 2, 2, 3, 1] ∧
    dget? (parse_sections docC7) "a" = some "a1\n## B\nb1\n## C\nc1\n### D\nd1" ∧
    pyIn "d1" ((dget? (parse_sections docC7) "a").getD "") = true ∧
    pyIn "e1" ((dget? (parse_sections docC7) "a").getD "") = false := by
  refine ⟨?_, ?_, by decide, by decide, by decide, by decide⟩
  · intro level numLines hs
    induction hs with
    | nil =>
      intro j ln' lvl' raw' hj
      simp at hj
    | cons q t ih =>
      intro j ln' lvl' raw' hj hle hmin
      obtain ⟨qln, qlvl, qraw⟩ := q
      cases j with
      | zero =>
        simp only [List.get?, Option.some.injEq, Prod.mk.injEq] at hj
        obtain ⟨h1, h2, h3⟩ := hj
        subst h1
        subst h2
        rw [endLineScan, if_pos hle]
      | succ j' =>
        have hq := hmin 0 (qln, qlvl, qraw) (Nat.succ_pos j') rfl
        simp only at hq
        rw [endLineScan]
        rw [if_neg (Nat.not_le.mpr hq)]
        exact ih j' ln' lvl' raw' (by simpa using hj) hle
          (fun k q' hk hget => hmin (k + 1) q' (Nat.succ_lt_succ hk) (by simpa using hget))
  · intro level numLines hs h
    induction hs with
    | nil => rfl
    | cons q t ih =>
      obtain ⟨qln, qlvl, qraw⟩ := q
      have hq := h (qln, qlvl, qraw) (List.mem_cons_self _ _)
      simp only at hq
      rw [endLineScan, if_neg (Nat.not_le.mpr hq)]
      exact ih fun q' hq' => h q' (List.mem_cons_of_mem _ hq')

/-- Witness for C7: on the heading tail of docC7's first level-1 heading,
the scan stops at line 8 (the second level-1 heading), and on a tail with
only deeper headings it runs to the line count. -/
theorem claim_C7_witness :
    endLineScan 1 10 [(2, 2, "B"), (4, 2, "C"), (6, 3, "D"), (8, 1, "E")] = 8 ∧
    endLineScan 2 10 [(6, 3, "D")] = 10 := by
  constructor
  · apply claim_C7.1 1 10 [(2, 2, "B"), (4, 2, "C"), (6, 3, "D"), (8, 1, "E")]
      3 8 1 "E" (by decide) (by decide)
    intro k q hk hget
    interval_cases k
    · rw [show ([(2, 2, "B"), (4, 2, "C"), (6, 3, "D"), (8, 1, "E")].get? 0) =
        some (2, 2, "B") from rfl] at hget
      cases hget
      decide
    · rw [show ([(2, 2, "B"), (4, 2, "C"), (6, 3, "D"), (8, 1, "E")].get? 1) =
        some (4, 2, "C") from rfl] at hget
      cases hget
      decide
    · rw [show ([(2, 2, "B"), (4, 2, "C"), (6, 3, "D"), (8, 1, "E")].get? 2) =
        some (6, 3, "D") from rfl] at hget
      cases hget
      decide
  · exact claim_C7.2.1 2 10 [(6, 3, "D")] (by decide)

/-- Claim C10: parse_sections never maps a heading key to empty content — a
heading whose span strips to nothing produces no entry at all — and
concretely, in a document where "# Alpha" is followed immediately by a
sibling heading, neither the "alpha" key nor find_section on "Alpha" finds
anything, even though "Alpha" is a parsed heading. -/
theorem claim_C10 :
    (∀ (text k v : String), dget? (parse_sections text) k = some v → v ≠ "") ∧
    findHeadings (linesOf docC10) = [(0, 1, "Alpha"), (1, 1, "Beta")] ∧
    dget? (parse_sections docC10) "alpha" = none ∧
    find_section (parse_sections docC10) "Alpha" = none := by
  refine ⟨?_, by decide, by decide, by decide⟩
  intro text k v hkv
  rw [parse_sections] at hkv
  exact parse_fold_values_ne (linesOf text) (findHeadings (linesOf text)) _ []
    (by intro k' v' h; cases h) k v hkv

/-- Witness for C10: the general no-empty-content property applied to a
concrete stored section. -/
theorem claim_C10_witness : ("b1" : String) ≠ "" :=
  claim_C10.1 docC7 "b" "b1" (by decide)

/-! ## Budget lemmas for extract_sections -/

theorem pyLen_append (a b : String) : pyLen (a ++ b) = pyLen a + pyLen b := by
  simp [pyLen, String.toList]

theorem pyLen_pyTake_le (s : String) (n : Nat) : pyLen (pyTake s n) ≤ n := by
  simp [pyLen, pyTake]

theorem pyJoin_len_le (sep : String) : ∀ xs : List String,
    pyLen (pyJoin sep xs) ≤ (xs.map pyLen).sum + pyLen sep * xs.length
  | [] => by simp [pyJoin, pyLen]
  | [x] => by simp [pyJoin]
  | x :: y :: rest => by
    have ih := pyJoin_len_le sep (y :: rest)
    rw [pyJoin, pyLen_append, pyLen_append]
    simp only [List.map_cons, List.sum_cons, List.length_cons] at *
    have hmul : pyLen sep * (rest.length + 1 + 1) =
        pyLen sep * (rest.length + 1) + pyLen sep := Nat.mul_succ _ _
    omega

theorem pyJoin_ends_last (sep : String) : ∀ (pre : List String) (x : String),
    ∃ y, pyJoin sep (pre ++ [x]) = y ++ x
  | [], x => ⟨"", by simp [pyJoin]⟩
  | [p], x => ⟨p ++ sep, by simp [pyJoin]⟩
  | p :: q :: rest, x => by
    obtain ⟨y, hy⟩ := pyJoin_ends_last sep (q :: rest) x
    refine ⟨p ++ sep ++ y, ?_⟩
    have h1 : (p :: q :: rest) ++ [x] = p :: q :: (rest ++ [x]) := rfl
    have h2 : (q :: rest) ++ [x] = q :: (rest ++ [x]) := rfl
    rw [h1, pyJoin, ← h2, hy]
    simp [String.append_assoc]

theorem extractLoop_bound (sections : List (String × String)) (m : Nat)
    (hm : 0 < m) :
    ∀ (ws : List String) (total : Nat) (parts : List String),
      (parts.map pyLen).sum = total → total ≤ m →
      ((extractLoop sections m ws total parts).length ≤ parts.length + ws.length ∧
        (((extractLoop sections m ws total parts).map pyLen).sum ≤ m ∨
          ∃ pre lastP, extractLoop sections m ws total parts = pre ++ [lastP] ∧
            strEndsWith lastP "\n[...truncated]" ∧
            ((extractLoop sections m ws total parts).map pyLen).sum ≤ m + 15)) := by
  intro ws
  induction ws with
  | nil =>
    intro total parts hsum htot
    simp only [extractLoop]
    exact ⟨by simp, Or.inl (hsum ▸ htot)⟩
  | cons w rest ih =>
    intro total parts hsum htot
    simp only [extractLoop]
    split
    · have h := ih total parts hsum htot
      refine ⟨?_, h.2⟩
      have := h.1
      simp only [List.length_cons]
      omega
    · rename_i content hfs
      by_cases hc : content = ""
      · rw [if_pos hc]
        have h := ih total parts hsum htot
        refine ⟨?_, h.2⟩
        have := h.1
        simp only [List.length_cons]
        omega
      · rw [if_neg hc]
        by_cases hb : m ≠ 0 ∧ m < total + pyLen (chunkOf w content)
        · rw [if_pos hb]
          by_cases h200 : 200 < m - total
          · rw [if_pos h200]
            have hcut : pyLen (pyTake (chunkOf w content) (m - total) ++
                "\n[...truncated]") ≤ (m - total) + 15 := by
              rw [pyLen_append]
              have h1 := pyLen_pyTake_le (chunkOf w content) (m - total)
              have h2 : pyLen "\n[...truncated]" = 15 := by decide
              omega
            constructor
            · simp only [List.length_append, List.length_cons, List.length_nil]
              omega
            · refine Or.inr ⟨parts,
                pyTake (chunkOf w content) (m - total) ++ "\n[...truncated]",
                rfl, ⟨pyTake (chunkOf w content) (m - total), rfl⟩, ?_⟩
              simp only [List.map_append, List.map_cons, List.map_nil,
                List.sum_append, List.sum_cons, List.sum_nil]
              omega
          · rw [if_neg h200]
            refine ⟨?_, Or.inl (hsum ▸ htot)⟩
            simp only [List.length_cons]
            omega
        · rw [if_neg hb]
          have hle : total + pyLen (chunkOf w content) ≤ m := by
            rcases not_and_or.mp hb with h1 | h1
            · simp only [ne_eq, not_not] at h1
              omega
            · omega
          have hsum2 : ((parts ++ [chunkOf w content]).map pyLen).sum =
              total + pyLen (chunkOf w content) := by
            simp only [List.map_append, List.map_cons, List.map_nil,
              List.sum_append, List.sum_cons, List.sum_nil]
            omega
          have h := ih (total + pyLen (chunkOf w content))
            (parts ++ [chunkOf w content]) hsum2 hle
          refine ⟨?_, h.2⟩
          have := h.1
          simp only [List.length_append, List.length_cons, List.length_nil] at *
          omega

/-- Claim C8, counterexample: two budget violations of the original claim —
(run 1) a 600-character section under a 300-character budget produces a
315-character output (the truncation marker is appended after the cut, so
the budget is exceeded); (run 2) with sections of 400 and 300 characters
under a 450-character budget, the second section is cut into with only 39
characters of budget remaining, and it is dropped silently: the output is
just the first chunk, contains no truncation notice, and omits the second
section entirely. -/
theorem claim_C8_counterexample :
    pyLen (extract_sections docC8a ["a"] 300) = 315 ∧
    300 < pyLen (extract_sections docC8a ["a"] 300) ∧
    extract_sections docC8b ["a", "b"] 450 =
      "\n--- A ---\n" ++ String.mk (List.replicate 400 'a') ∧
    pyIn "[...truncated]" (extract_sections docC8b ["a", "b"] 450) = false ∧
    find_section (parse_sections docC8b) "b" =
      some (String.mk (List.replicate 300 'b')) ∧
    450 < pyLen (extract_sections docC8b ["a", "b"] 450) +
      pyLen (chunkOf "b" (String.mk (List.replicate 300 'b'))) := by
  refine ⟨by decide, by decide, by decide, by decide, by decide, by decide⟩

/-- Claim C8 (amended): for a positive budget, the output of
extract_sections exceeds max_chars by at most one join separator per wanted
section, plus — only when the output ends with the explicit
"[...truncated]" notice — the 15 characters of that notice; a section cut
into with at most 200 characters of budget remaining is dropped without any
notice (run 2 of the counterexample). -/
theorem claim_C8_amended (text : String) (ws : List String) (m : Nat)
    (hm : 0 < m) :
    pyLen (extract_sections text ws m) ≤ m + ws.length ∨
    (strEndsWith (extract_sections text ws m) "\n[...truncated]" ∧
      pyLen (extract_sections text ws m) ≤ m + 15 + ws.length) := by
  have h := extractLoop_bound (parse_sections text) m hm ws 0 [] rfl (Nat.zero_le m)
  have hlen := h.1
  have hjoin := pyJoin_len_le "\n" (extractLoop (parse_sections text) m ws 0 [])
  have h1 : pyLen "\n" = 1 := by decide
  rw [h1, one_mul] at hjoin
  rw [extract_sections]
  rcases h.2 with hA | ⟨pre, lastP, heq, hends, hsum⟩
  · left
    simp only [List.length_nil, Nat.zero_add] at hlen
    omega
  · right
    constructor
    · obtain ⟨y, hy⟩ := pyJoin_ends_last "\n" pre lastP
      obtain ⟨z, hz⟩ := hends
      refine ⟨y ++ z, ?_⟩
      rw [heq, hy, hz]
      simp [String.append_assoc]
    · simp only [List.length_nil, Nat.zero_add] at hlen
      omega

/-- Witness for C8 (amended) at a concrete document and budget. -/
theorem claim_C8_witness :
    pyLen (extract_sections docC7 ["a"] 400) ≤ 400 + 1 ∨
    (strEndsWith (extract_sections docC7 ["a"] 400) "\n[...truncated]" ∧
      pyLen (extract_sections docC7 ["a"] 400) ≤ 400 + 15 + 1) :=
  claim_C8_amended docC7 ["a"] 400 (by decide)
